import Mathlib

/-!
Shallow embedding of the form-submission pipelines of the 7ZeroMedia site
(`src/app/api/contact/route.ts`: the contact route and the careers route).
Strings are modelled as `List Char`; the JavaScript string operations used by
the handlers (regex replaces, `trim`, `slice`, template literals) are embedded
as executable functions on character lists. One deliberate simplification:
a JS string is a sequence of UTF-16 code units while `Char` is a code point,
so `.length`/`.slice` agree with the embedding except on astral-plane
characters (surrogate pairs); no property below depends on that difference.
-/

set_option maxRecDepth 20000

namespace SevenZero

/-- The code points JavaScript treats as whitespace (`\s` in a regex, and the
characters removed by `String.prototype.trim`): WhiteSpace and LineTerminator. -/
def jsWhitespaceCodes : List Nat :=
  [9, 10, 11, 12, 13, 32, 160, 0x1680,
   0x2000, 0x2001, 0x2002, 0x2003, 0x2004, 0x2005, 0x2006, 0x2007,
   0x2008, 0x2009, 0x200A, 0x2028, 0x2029, 0x202F, 0x205F, 0x3000, 0xFEFF]

def isJsWs (c : Char) : Bool := jsWhitespaceCodes.contains c.toNat

/-- `str.trim()`: strip leading and trailing JS whitespace. -/
def jsTrim (l : List Char) : List Char :=
  ((l.dropWhile isJsWs).reverse.dropWhile isJsWs).reverse

/-- Helper for the tag-stripping regex `/<[^>]*>/g`: `some rest` when the list
contains a `'>'`, with `rest` everything after the first one; `none` otherwise. -/
def afterGt : List Char → Option (List Char)
  | [] => none
  | c :: rest => if c = '>' then some rest else afterGt rest

theorem afterGt_length : ∀ {l l' : List Char}, afterGt l = some l' → l'.length < l.length := by
  intro l
  induction l with
  | nil => intro l' h; simp [afterGt] at h
  | cons c rest ih =>
    intro l' h
    simp only [afterGt] at h
    split at h
    · cases h; simp
    · exact Nat.lt_trans (ih h) (by simp)

/-- `str.replace(/<[^>]*>/g, "")` as the JS regex engine performs it, scanning
left to right: at a `'<'` the pattern matches up to the first following `'>'`
(greedy `[^>]*` cannot cross one) and the match is removed; a `'<'` with no
later `'>'` matches nothing and is kept. Reference version by well-founded
recursion; `stripTags` below is the equivalent structural one-pass automaton,
proved equal in `stripTags_eq_regex`. -/
def stripTagsRegex : List Char → List Char
  | [] => []
  | c :: rest =>
    if c = '<' then
      match h : afterGt rest with
      | some rest2 => stripTagsRegex rest2
      | none => c :: stripTagsRegex rest
    else c :: stripTagsRegex rest
termination_by l => l.length
decreasing_by
  · exact Nat.lt_succ_of_lt (afterGt_length h)
  · simp
  · simp

/-- One-pass automaton for `/<[^>]*>/g` removal: outside a tag (`none`) a
`'<'` opens a pending buffer; inside a tag (`some buf`, the pending characters
in reverse) a `'>'` discards the buffer (the whole match is removed), the end of
input emits the buffer verbatim (an unclosed `'<'` matches nothing). -/
def stripTagsAux : Option (List Char) → List Char → List Char
  | none, [] => []
  | some buf, [] => buf.reverse
  | none, c :: rest =>
    if c = '<' then stripTagsAux (some [c]) rest
    else c :: stripTagsAux none rest
  | some buf, c :: rest =>
    if c = '>' then stripTagsAux none rest
    else stripTagsAux (some (c :: buf)) rest

def stripTags (l : List Char) : List Char := stripTagsAux none l

theorem afterGt_none_not_mem : ∀ {l : List Char}, afterGt l = none → '>' ∉ l := by
  intro l
  induction l with
  | nil => intro _; simp
  | cons c rest ih =>
    intro h hm
    simp only [afterGt] at h
    split at h
    · cases h
    · next hne =>
      rcases List.mem_cons.mp hm with h1 | h1
      · exact hne h1.symm
      · exact ih h h1

theorem stripTagsAux_no_gt :
    ∀ (l buf : List Char), afterGt l = none →
      stripTagsAux (some buf) l = buf.reverse ++ l := by
  intro l
  induction l with
  | nil => intro buf _; simp [stripTagsAux]
  | cons c rest ih =>
    intro buf h
    simp only [afterGt] at h
    split at h
    · cases h
    · next hne =>
      simp only [stripTagsAux, if_neg hne]
      rw [ih _ h]
      simp

theorem stripTagsAux_to_gt :
    ∀ (l l' buf : List Char), afterGt l = some l' →
      stripTagsAux (some buf) l = stripTagsAux none l' := by
  intro l
  induction l with
  | nil => intro l' buf h; simp [afterGt] at h
  | cons c rest ih =>
    intro l' buf h
    simp only [afterGt] at h
    split at h
    · next he => cases h; simp [stripTagsAux, he]
    · next hne =>
      simp only [stripTagsAux, if_neg hne]
      exact ih _ _ h

theorem stripTagsRegex_no_gt : ∀ (l : List Char), afterGt l = none → stripTagsRegex l = l := by
  intro l
  induction l with
  | nil => intro _; simp [stripTagsRegex]
  | cons c rest ih =>
    intro h
    simp only [afterGt] at h
    split at h
    · cases h
    · next hne =>
      rw [stripTagsRegex, h]
      split
      · rw [ih h]
      · rw [ih h]

theorem stripTags_eq_regex_bounded :
    ∀ (n : Nat) (l : List Char), l.length ≤ n → stripTags l = stripTagsRegex l := by
  intro n
  induction n with
  | zero =>
    intro l hl
    have : l = [] := List.length_eq_zero.mp (Nat.le_zero.mp hl)
    subst this
    simp [stripTags, stripTagsAux, stripTagsRegex]
  | succ n ih =>
    intro l hl
    match l with
    | [] => simp [stripTags, stripTagsAux, stripTagsRegex]
    | c :: rest =>
      by_cases hc : c = '<'
      · subst hc
        rw [stripTagsRegex]
        simp only [if_pos rfl]
        match hGt : afterGt rest with
        | some rest2 =>
          have hlen : rest2.length ≤ n := by
            have := afterGt_length hGt
            simp at hl
            omega
          show stripTagsAux (some ['<']) rest = _
          rw [stripTagsAux_to_gt _ _ _ hGt]
          exact ih rest2 hlen
        | none =>
          show stripTagsAux (some ['<']) rest = _
          rw [stripTagsAux_no_gt _ _ hGt, stripTagsRegex_no_gt _ hGt]
          rfl
      · rw [stripTagsRegex]
        simp only [if_neg hc]
        show (if c = '<' then _ else c :: stripTagsAux none rest) = _
        rw [if_neg hc]
        have : rest.length ≤ n := by simp at hl; omega
        exact congrArg (c :: ·) (ih rest this)

/-- The one-pass automaton computes exactly the global regex replacement. -/
theorem stripTags_eq_regex (l : List Char) : stripTags l = stripTagsRegex l :=
  stripTags_eq_regex_bounded l.length l (Nat.le_refl _)

/-- `str.replace(/[\r\n]/g, " ")`: each CR and each LF character becomes one space. -/
def replaceCRLF : List Char → List Char
  | [] => []
  | c :: rest => (if c = '\r' || c = '\n' then ' ' else c) :: replaceCRLF rest

/-- `str.replace(/c/g, rep)` for a single-character pattern `c`. -/
def replaceAll (c : Char) (rep : List Char) : List Char → List Char
  | [] => []
  | x :: rest => (if x = c then rep else [x]) ++ replaceAll c rep rest

/-- `escapeHtml` of the contact route: five global replaces, `&` first. -/
def escapeHtml (s : List Char) : List Char :=
  replaceAll '>' ("&gt;").toList
    (replaceAll '<' ("&lt;").toList
      (replaceAll '\'' ("&#39;").toList
        (replaceAll '"' ("&quot;").toList
          (replaceAll '&' ("&amp;").toList s))))

/-- A character matched by the regex class `[^\s@]` of `EMAIL_RE`. -/
def emailChar (c : Char) : Bool := !isJsWs c && c != '@'

/-- After the `'@'`, `[^\s@]+\.[^\s@]{2,}$` needs a dot with at least one domain
character before it and at least two characters after it. This checks the tail
positions after the first domain character. -/
def domainTailDotOk : List Char → Bool
  | [] => false
  | c :: rest => (c = '.' && rest.length ≥ 2) || domainTailDotOk rest

def domainDotOk : List Char → Bool
  | [] => false
  | _ :: rest => domainTailDotOk rest

/-- `EMAIL_RE.test` for `EMAIL_RE = /^[^\s@]+@[^\s@]+\.[^\s@]{2,}$/`: both
character classes exclude `'@'`, so the separator is the first `'@'`; the local
part is nonempty, the whole string has no whitespace and no second `'@'`, and
the domain decomposes around some dot as required. -/
def emailTest (l : List Char) : Bool :=
  let localPart := l.takeWhile (fun c => c != '@')
  match l.dropWhile (fun c => c != '@') with
  | [] => false
  | _ :: domain =>
    !localPart.isEmpty && localPart.all emailChar &&
    domain.all emailChar && domainDotOk domain

/-- Percent-encoding hex digit (uppercase, as `encodeURIComponent` emits). -/
def hexDigit (n : Nat) : Char :=
  if n < 10 then Char.ofNat (48 + n) else Char.ofNat (55 + n)

/-- The UTF-8 bytes of a code point (what `encodeURIComponent` percent-encodes;
JS works on UTF-16 units, which for well-formed strings encodes the same bytes). -/
def utf8Bytes (n : Nat) : List Nat :=
  if n < 0x80 then [n]
  else if n < 0x800 then [0xC0 + n / 0x40, 0x80 + n % 0x40]
  else if n < 0x10000 then [0xE0 + n / 0x1000, 0x80 + (n / 0x40) % 0x40, 0x80 + n % 0x40]
  else [0xF0 + n / 0x40000, 0x80 + (n / 0x1000) % 0x40, 0x80 + (n / 0x40) % 0x40,
        0x80 + n % 0x40]

/-- The characters `encodeURIComponent` leaves unencoded. -/
def uriUnreserved (c : Char) : Bool :=
  c.isAlphanum || ("-_.!~*'()").toList.contains c

def percentEncodeChar (c : Char) : List Char :=
  if uriUnreserved c then [c]
  else (utf8Bytes c.toNat).foldr (fun b acc => '%' :: hexDigit (b / 16) :: hexDigit (b % 16) :: acc) []

def encodeURIComponent : List Char → List Char
  | [] => []
  | c :: rest => percentEncodeChar c ++ encodeURIComponent rest

example : encodeURIComponent ("the position").toList = ("the%20position").toList := by decide
example : jsTrim ("  a b ").toList = ("a b").toList := by decide
example : stripTags ("a<b>c").toList = ("ac").toList := by decide
example : stripTags ("<<a>>").toList = (">").toList := by decide
example : stripTags ("a<b").toList = ("a<b").toList := by decide
example : escapeHtml ("A&B<c>'\"").toList = ("A&amp;B&lt;c&gt;&#39;&quot;").toList := by decide
example : emailTest ("alex@brand.com").toList = true := by decide
example : emailTest ("a@b.co").toList = true := by decide
example : emailTest ("a@b.c").toList = false := by decide
example : emailTest ("a@bco").toList = false := by decide
example : emailTest ("a b@x.com").toList = false := by decide
example : emailTest ("@x.com").toList = false := by decide
example : emailTest ("a@x.y.com").toList = true := by decide

/-! ## Request values and environment -/

/-- A JSON value of a parsed request body field, as `typeof` distinguishes
them: only `str` carries a string. Objects/arrays are collapsed into `obj`
(the handlers only ever test `typeof v !== "string"` and truthiness, and every
object or array is truthy); numbers are modelled as integers. -/
inductive JsonVal where
  | str (s : List Char)
  | num (n : Int)
  | boolean (b : Bool)
  | null
  | obj
deriving DecidableEq

/-- JavaScript truthiness of a possibly-absent field value (`none` = the key is
missing, i.e. `undefined`). -/
def jsTruthy : Option JsonVal → Bool
  | none => false
  | some (.str s) => !s.isEmpty
  | some (.num n) => n != 0
  | some (.boolean b) => b
  | some .null => false
  | some .obj => true

/-- An uploaded `File` as the careers route reads it: its client-declared name,
media type and byte size. -/
structure FileData where
  name : List Char
  type : List Char
  size : Nat
deriving DecidableEq

/-- A `FormDataEntryValue`: a string or a `File`. -/
inductive FormEntry where
  | str (s : List Char)
  | file (f : FileData)
deriving DecidableEq

/-- `FormData.get` truthiness: `null` is falsy, an empty string is falsy, a
`File` object is truthy. -/
def entryTruthy : Option FormEntry → Bool
  | none => false
  | some (.str s) => !s.isEmpty
  | some (.file _) => true

/-- The process environment variables the two routes read (a missing variable
is `undefined`). -/
structure Env where
  NODE_ENV : Option (List Char)
  SMTP_FROM : Option (List Char)
  SMTP_USER : Option (List Char)
  SMTP_HR_FROM : Option (List Char)
  SMTP_HR_USER : Option (List Char)
deriving DecidableEq

/-- JS template interpolation of a possibly-undefined env string. -/
def envStr : Option (List Char) → List Char
  | some s => s
  | none => ("undefined").toList

/-- The body of a `NextResponse.json` payload used by the routes. -/
inductive RespBody where
  | okTrue
  | errMsg (msg : String)
  | fieldErrors (errs : List (String × String))
deriving DecidableEq

structure Resp where
  status : Nat
  body : RespBody
deriving DecidableEq

/-- The message handed to `transporter.sendMail`. -/
structure MailMsg where
  «from» : List Char
  «to» : List Char
  replyTo : List Char
  subject : List Char
  text : List Char
  html : List Char
  attachments : List FileData
deriving DecidableEq

/-- What one request observably produces: the HTTP response, the message given
to the dispatcher (`none` when `sendMail` was never invoked), and whether the
route logged the transport error to the console. -/
structure HandlerResult where
  resp : Resp
  sent : Option MailMsg
  logged : Bool
deriving DecidableEq

/-- Lines joined with `"\n"` (`Array.prototype.join`). -/
def joinNl : List (List Char) → List Char
  | [] => []
  | [l] => l
  | l :: rest => l ++ '\n' :: joinNl rest

/-- `hasSubstring pat l`: some contiguous run of `l` equals `pat`
(`String.prototype.includes`). -/
def hasSubstring (pat : List Char) : List Char → Bool
  | [] => pat.isEmpty
  | c :: rest => pat.isPrefixOf (c :: rest) || hasSubstring pat rest

/-! ## Contact route (`/api/contact`, JSON body) -/

namespace Contact

/-- The fields the contact handler reads from the parsed JSON body. -/
structure Body where
  name : Option JsonVal
  email : Option JsonVal
  company : Option JsonVal
  service : Option JsonVal
  message : Option JsonVal
  website : Option JsonVal
deriving DecidableEq

/-- The contact route's `sanitize`: non-strings become `""`; strings are
tag-stripped, CR/LF-replaced, trimmed and truncated. -/
def sanitize (v : Option JsonVal) (maxLen : Nat) : List Char :=
  match v with
  | some (.str s) => (jsTrim (replaceCRLF (stripTags s))).take maxLen
  | _ => []

def ALLOWED_SERVICES : List (List Char) :=
  [("Marketing Strategy").toList, ("Brand Identity").toList, ("Content Creation").toList,
   ("Filming & Production").toList, ("Social Media").toList, ("Other").toList]

/-- The contact validation error map, in insertion order. -/
def errorsFor (name email service message : List Char) : List (String × String) :=
  (if name.isEmpty || name.length < 2 then
    [("name", "Name must be at least 2 characters.")] else []) ++
  (if email.isEmpty || !emailTest email then
    [("email", "A valid email address is required.")] else []) ++
  (if message.isEmpty || message.length < 10 then
    [("message", "Please tell us a bit more (at least 10 characters).")] else []) ++
  (if !service.isEmpty && !(ALLOWED_SERVICES.contains service) then
    [("service", "Invalid service selection.")] else [])

def companyLine (company : List Char) : List Char :=
  if !company.isEmpty then ("Company:  ").toList ++ company else ("Company:  —").toList

def serviceLine (service : List Char) : List Char :=
  if !service.isEmpty then ("Service:  ").toList ++ service
  else ("Service:  Not specified").toList

/-- The entries of the contact `textBody` array (joined with `"\n"`). -/
def textLines (name email company service message : List Char) : List (List Char) :=
  [("New contact inquiry received via 7ZeroMedia website.").toList,
   [],
   ("Name:     ").toList ++ name,
   ("Email:    ").toList ++ email,
   companyLine company,
   serviceLine service,
   [],
   ("Message:").toList,
   message,
   [],
   ("─────────────────────────────").toList,
   ("This email was sent automatically. Do not reply to this address.").toList]

def textBody (name email company service message : List Char) : List Char :=
  joinNl (textLines name email company service message)

/-- The contact `htmlBody` template literal, with its `.trim()`. -/
def htmlBody (name email company service message : List Char) : List Char :=
  jsTrim (
    ("
<!DOCTYPE html>
<html lang=\"en\">
<head>
  <meta charset=\"UTF-8\" />
  <meta name=\"viewport\" content=\"width=device-width, initial-scale=1.0\" />
  <title>New Contact Inquiry</title>
</head>
<body style=\"margin:0;padding:0;background:#F8F8F8;font-family:-apple-system,BlinkMacSystemFont,'Segoe UI',sans-serif;\">
  <table width=\"100%\" cellpadding=\"0\" cellspacing=\"0\" style=\"background:#F8F8F8;padding:40px 20px;\">
    <tr>
      <td align=\"center\">
        <table width=\"600\" cellpadding=\"0\" cellspacing=\"0\" style=\"background:#ffffff;border-radius:16px;overflow:hidden;border:1px solid rgba(0,0,0,0.06);\">

          <!-- Header -->
          <tr>
            <td style=\"background:linear-gradient(135deg,#F97316 0%,#ea6c0a 100%);padding:28px 36px;\">
              <p style=\"margin:0;font-size:11px;font-weight:700;letter-spacing:0.2em;text-transform:uppercase;color:rgba(255,255,255,0.75);\">7ZeroMedia</p>
              <h1 style=\"margin:8px 0 0;font-size:22px;font-weight:700;color:#ffffff;line-height:1.3;\">New Contact Inquiry</h1>
            </td>
          </tr>

          <!-- Body -->
          <tr>
            <td style=\"padding:36px;\">

              <!-- Fields -->
              <table width=\"100%\" cellpadding=\"0\" cellspacing=\"0\">
                <tr>
                  <td style=\"padding:0 0 20px;\">
                    <p style=\"margin:0 0 4px;font-size:10px;font-weight:700;letter-spacing:0.15em;text-transform:uppercase;color:#F97316;\">Name</p>
                    <p style=\"margin:0;font-size:15px;color:#111111;font-weight:600;\">").toList
    ++
    (escapeHtml name)
    ++
    ("</p>
                  </td>
                </tr>
                <tr>
                  <td style=\"padding:0 0 20px;\">
                    <p style=\"margin:0 0 4px;font-size:10px;font-weight:700;letter-spacing:0.15em;text-transform:uppercase;color:#F97316;\">Email</p>
                    <p style=\"margin:0;font-size:15px;color:#111111;\">
                      <a href=\"mailto:").toList
    ++
    (escapeHtml email)
    ++
    ("\" style=\"color:#F97316;text-decoration:none;\">").toList
    ++
    (escapeHtml email)
    ++
    ("</a>
                    </p>
                  </td>
                </tr>
                ").toList
    ++
    (if company.isEmpty then [] else (
      ("
                <tr>
                  <td style=\"padding:0 0 20px;\">
                    <p style=\"margin:0 0 4px;font-size:10px;font-weight:700;letter-spacing:0.15em;text-transform:uppercase;color:#F97316;\">Company / Brand</p>
                    <p style=\"margin:0;font-size:15px;color:#111111;\">").toList
      ++
      (escapeHtml company)
      ++
      ("</p>
                  </td>
                </tr>").toList))
    ++
    ("
                ").toList
    ++
    (if service.isEmpty then [] else (
      ("
                <tr>
                  <td style=\"padding:0 0 20px;\">
                    <p style=\"margin:0 0 4px;font-size:10px;font-weight:700;letter-spacing:0.15em;text-transform:uppercase;color:#F97316;\">Service Interested In</p>
                    <p style=\"margin:0;display:inline-block;font-size:13px;font-weight:600;color:#F97316;background:rgba(249,115,22,0.10);border:1px solid rgba(249,115,22,0.25);border-radius:100px;padding:4px 14px;\">").toList
      ++
      (escapeHtml service)
      ++
      ("</p>
                  </td>
                </tr>").toList))
    ++
    ("
                <tr>
                  <td style=\"padding:0 0 4px;\">
                    <p style=\"margin:0 0 10px;font-size:10px;font-weight:700;letter-spacing:0.15em;text-transform:uppercase;color:#F97316;\">Message</p>
                    <div style=\"background:#F8F8F8;border-radius:12px;padding:16px 20px;border:1px solid rgba(0,0,0,0.06);\">
                      <p style=\"margin:0;font-size:14px;line-height:1.7;color:#444444;white-space:pre-wrap;\">").toList
    ++
    (escapeHtml message)
    ++
    ("</p>
                    </div>
                  </td>
                </tr>
              </table>

              <!-- Reply CTA -->
              <table width=\"100%\" cellpadding=\"0\" cellspacing=\"0\" style=\"margin-top:32px;\">
                <tr>
                  <td>
                    <a href=\"mailto:").toList
    ++
    (escapeHtml email)
    ++
    ("?subject=Re: Your inquiry to 7ZeroMedia\"
                       style=\"display:inline-block;background:linear-gradient(135deg,#F97316 0%,#ea6c0a 100%);color:#ffffff;font-size:13px;font-weight:700;text-decoration:none;padding:12px 28px;border-radius:10px;\">
                      Reply to ").toList
    ++
    (escapeHtml name)
    ++
    ("
                    </a>
                  </td>
                </tr>
              </table>

            </td>
          </tr>

          <!-- Footer -->
          <tr>
            <td style=\"padding:20px 36px;border-top:1px solid rgba(0,0,0,0.06);\">
              <p style=\"margin:0;font-size:11px;color:rgba(0,0,0,0.35);line-height:1.6;\">
                Sent automatically from the 7ZeroMedia contact form. Do not reply to this system email.
              </p>
            </td>
          </tr>

        </table>
      </td>
    </tr>
  </table>
</body>
</html>").toList)

/-- The validation error map of a parsed contact body. -/
def errorsOf (b : Body) : List (String × String) :=
  errorsFor (sanitize b.name 120) (sanitize b.email 254)
    (sanitize b.service 60) (sanitize b.message 4000)

/-- The contact `POST` handler. `body` is the parsed JSON body (`none` when
`req.json()` threw); `dispatch` is the outcome of `transporter.sendMail`
(`some err` when the transport throws with message `err`). -/
def POST (body : Option Body) (dispatch : Option (List Char)) (env : Env) : HandlerResult :=
  match body with
  | none => ⟨⟨400, .errMsg "Invalid request body."⟩, none, false⟩
  | some b =>
    if jsTruthy b.website then ⟨⟨200, .okTrue⟩, none, false⟩
    else
      let name := sanitize b.name 120
      let email := sanitize b.email 254
      let company := sanitize b.company 120
      let service := sanitize b.service 60
      let message := sanitize b.message 4000
      let errors := errorsFor name email service message
      if errors.length > 0 then ⟨⟨422, .fieldErrors errors⟩, none, false⟩
      else
        let msg : MailMsg :=
          { «from» := match env.SMTP_FROM with
              | some f => f
              | none => ("\"7ZeroMedia\" <").toList ++ envStr env.SMTP_USER ++ (">").toList
            «to» := ("info@7zero.media").toList
            replyTo := email
            subject := ("New Contact Inquiry from ").toList ++ name
            text := textBody name email company service message
            html := htmlBody name email company service message
            attachments := [] }
        match dispatch with
        | some _err =>
          ⟨⟨500, .errMsg "Unable to process request at this time."⟩, some msg,
           env.NODE_ENV = some ("development").toList⟩
        | none => ⟨⟨200, .okTrue⟩, some msg, false⟩

end Contact

/-! ## Careers route (`/api/contact` careers variant, multipart form body) -/

namespace Careers

/-- The form entries the careers handler reads (`FormData.get` returns `null`
for a missing key, modelled as `none`). -/
structure Form where
  name : Option FormEntry
  email : Option FormEntry
  portfolio : Option FormEntry
  linkedin : Option FormEntry
  github : Option FormEntry
  experience : Option FormEntry
  about : Option FormEntry
  jobTitle : Option FormEntry
  website : Option FormEntry
  cv : Option FormEntry
deriving DecidableEq

/-- The careers route's `sanitize`: non-strings (including `File` entries and
`null`) become `""`; strings are tag-stripped, trimmed and truncated — no CR/LF
replacement on this route. -/
def sanitize (v : Option FormEntry) (maxLen : Nat) : List Char :=
  match v with
  | some (.str s) => (jsTrim (stripTags s)).take maxLen
  | _ => []

def ALLOWED_MIME : List (List Char) :=
  [("application/pdf").toList,
   ("application/msword").toList,
   ("application/vnd.openxmlformats-officedocument.wordprocessingml.document").toList]

def MAX_FILE_BYTES : Nat := 5 * 1024 * 1024

def ALLOWED_EXPERIENCE : List (List Char) :=
  [("Fresher").toList, ("1-3 Years").toList, ("3-5 Years").toList,
   ("5+ Years").toList, ("Currently Attending College").toList]

/-- The result of the WHATWG `new URL(value)` constructor, an external platform
API: `none` when the constructor throws, otherwise the parsed URL's protocol. -/
structure UrlParts where
  protocol : List Char

/-- `isValidUrl`, parameterised by the external URL parser. -/
def isValidUrl (parseUrl : List Char → Option UrlParts) (value : List Char) : Bool :=
  if value.isEmpty then true
  else
    match parseUrl value with
    | some url => url.protocol = ("http:").toList || url.protocol = ("https:").toList
    | none => false

/-- `cvEntry instanceof File && cvEntry.size > 0 ? cvEntry : null`. -/
def cvFileOf : Option FormEntry → Option FileData
  | some (.file f) => if f.size > 0 then some f else none
  | _ => none

/-- The careers validation error map, in insertion order. The two `errors.file`
assignments of the source are exclusive (`!cvFile` vs `cvFile`), so each field
still contributes at most one entry. -/
def errorsFor (name email portfolio linkedin github experience about : List Char)
    (cvFile : Option FileData) (parseUrl : List Char → Option UrlParts) :
    List (String × String) :=
  (if name.isEmpty || name.length < 2 then
    [("name", "Name must be at least 2 characters.")] else []) ++
  (if email.isEmpty || !emailTest email then
    [("email", "A valid email address is required.")] else []) ++
  (if !portfolio.isEmpty && !isValidUrl parseUrl portfolio then
    [("portfolio", "Portfolio must be a valid URL.")] else []) ++
  (if !linkedin.isEmpty && !isValidUrl parseUrl linkedin then
    [("linkedin", "LinkedIn must be a valid URL.")] else []) ++
  (if !github.isEmpty && !isValidUrl parseUrl github then
    [("github", "GitHub must be a valid URL.")] else []) ++
  (if experience.isEmpty || !(ALLOWED_EXPERIENCE.contains experience) then
    [("experience", "A valid experience level is required.")] else []) ++
  (if about.isEmpty || about.length < 10 then
    [("about", "Please provide more detail (at least 10 characters).")] else []) ++
  (match cvFile with
   | none => [("file", "A CV file is required.")]
   | some f =>
     if !(ALLOWED_MIME.contains f.type) then
       [("file", "Only PDF, DOC, or DOCX files are accepted.")]
     else if f.size > MAX_FILE_BYTES then
       [("file", "CV must be 5 MB or smaller.")]
     else [])

/-- The entries of the careers `textBody` array: `null` entries for the absent
optional links, before `.filter(Boolean)`. -/
def textEntries (jobTitle name email experience portfolio linkedin github about : List Char) :
    List (Option (List Char)) :=
  [some (("New job application received via 7ZeroMedia website.").toList),
   some (("Position: ").toList ++ (if jobTitle.isEmpty then ("Not specified").toList else jobTitle)),
   some [],
   some (("Name:        ").toList ++ name),
   some (("Email:       ").toList ++ email),
   some (("Experience:  ").toList ++ experience),
   (if !portfolio.isEmpty then some (("Portfolio:   ").toList ++ portfolio) else none),
   (if !linkedin.isEmpty then some (("LinkedIn:    ").toList ++ linkedin) else none),
   (if !github.isEmpty then some (("GitHub:      ").toList ++ github) else none),
   some [],
   some (("About the candidate:").toList),
   some about,
   some [],
   some (("─────────────────────────────").toList),
   some (("CV is attached to this email.").toList),
   some (("This message was sent automatically from the 7ZeroMedia careers form.").toList)]

/-- `.filter(Boolean)`: drops `null` entries and empty strings (both falsy). -/
def filterBoolean (xs : List (Option (List Char))) : List (List Char) :=
  (xs.filterMap id).filter (fun l => !l.isEmpty)

def textLines (jobTitle name email experience portfolio linkedin github about : List Char) :
    List (List Char) :=
  filterBoolean (textEntries jobTitle name email experience portfolio linkedin github about)

def textBody (jobTitle name email experience portfolio linkedin github about : List Char) :
    List Char :=
  joinNl (textLines jobTitle name email experience portfolio linkedin github about)

/-- `cvFile?.name ?? "cv"`. -/
def cvDisplayName : Option FileData → List Char
  | some f => f.name
  | none => ("cv").toList

/-- The careers `htmlBody` template literal, with its `.trim()`: the
user-supplied fields are interpolated directly, with no `escapeHtml`. -/
def htmlBody (jobTitle name email experience portfolio linkedin github about : List Char) (cvFile : Option FileData) : List Char :=
  jsTrim (
    ("
<!DOCTYPE html>
<html lang=\"en\">
<head>
  <meta charset=\"UTF-8\" />
  <meta name=\"viewport\" content=\"width=device-width, initial-scale=1.0\" />
  <title>New Job Application</title>
</head>
<body style=\"margin:0;padding:0;background:#F8F8F8;font-family:-apple-system,BlinkMacSystemFont,'Segoe UI',sans-serif;\">
  <table width=\"100%\" cellpadding=\"0\" cellspacing=\"0\" style=\"background:#F8F8F8;padding:40px 20px;\">
    <tr>
      <td align=\"center\">
        <table width=\"600\" cellpadding=\"0\" cellspacing=\"0\" style=\"background:#ffffff;border-radius:16px;overflow:hidden;border:1px solid rgba(0,0,0,0.06);\">

          <!-- Header -->
          <tr>
            <td style=\"background:linear-gradient(135deg,#F97316 0%,#ea6c0a 100%);padding:28px 36px;\">
              <p style=\"margin:0;font-size:11px;font-weight:700;letter-spacing:0.2em;text-transform:uppercase;color:rgba(255,255,255,0.75);\">7ZeroMedia — Careers</p>
              <h1 style=\"margin:8px 0 0;font-size:20px;font-weight:700;color:#ffffff;line-height:1.3;\">New Application Received</h1>
              ").toList
    ++
    (if jobTitle.isEmpty then [] else (
      ("<p style=\"margin:8px 0 0;font-size:14px;color:rgba(255,255,255,0.85);\">Position: <strong>").toList
      ++
      jobTitle
      ++
      ("</strong></p>").toList))
    ++
    ("
            </td>
          </tr>

          <!-- Body -->
          <tr>
            <td style=\"padding:36px;\">
              <table width=\"100%\" cellpadding=\"0\" cellspacing=\"0\">

                <!-- Name -->
                <tr><td style=\"padding:0 0 18px;\">
                  <p style=\"margin:0 0 4px;font-size:10px;font-weight:700;letter-spacing:0.15em;text-transform:uppercase;color:#F97316;\">Full Name</p>
                  <p style=\"margin:0;font-size:15px;color:#111111;font-weight:600;\">").toList
    ++
    name
    ++
    ("</p>
                </td></tr>

                <!-- Email -->
                <tr><td style=\"padding:0 0 18px;\">
                  <p style=\"margin:0 0 4px;font-size:10px;font-weight:700;letter-spacing:0.15em;text-transform:uppercase;color:#F97316;\">Email</p>
                  <p style=\"margin:0;font-size:15px;color:#111111;\">
                    <a href=\"mailto:").toList
    ++
    email
    ++
    ("\" style=\"color:#F97316;text-decoration:none;\">").toList
    ++
    email
    ++
    ("</a>
                  </p>
                </td></tr>

                <!-- Experience -->
                <tr><td style=\"padding:0 0 18px;\">
                  <p style=\"margin:0 0 4px;font-size:10px;font-weight:700;letter-spacing:0.15em;text-transform:uppercase;color:#F97316;\">Experience Level</p>
                  <p style=\"margin:0;display:inline-block;font-size:13px;font-weight:600;color:#F97316;background:rgba(249,115,22,0.10);border:1px solid rgba(249,115,22,0.25);border-radius:100px;padding:4px 14px;\">").toList
    ++
    experience
    ++
    ("</p>
                </td></tr>

                ").toList
    ++
    (if portfolio.isEmpty then [] else (
      ("
                <!-- Portfolio -->
                <tr><td style=\"padding:0 0 18px;\">
                  <p style=\"margin:0 0 4px;font-size:10px;font-weight:700;letter-spacing:0.15em;text-transform:uppercase;color:#F97316;\">Portfolio</p>
                  <p style=\"margin:0;font-size:14px;\"><a href=\"").toList
      ++
      portfolio
      ++
      ("\" style=\"color:#F97316;text-decoration:none;\">").toList
      ++
      portfolio
      ++
      ("</a></p>
                </td></tr>").toList))
    ++
    ("

                ").toList
    ++
    (if linkedin.isEmpty then [] else (
      ("
                <!-- LinkedIn -->
                <tr><td style=\"padding:0 0 18px;\">
                  <p style=\"margin:0 0 4px;font-size:10px;font-weight:700;letter-spacing:0.15em;text-transform:uppercase;color:#F97316;\">LinkedIn</p>
                  <p style=\"margin:0;font-size:14px;\"><a href=\"").toList
      ++
      linkedin
      ++
      ("\" style=\"color:#F97316;text-decoration:none;\">").toList
      ++
      linkedin
      ++
      ("</a></p>
                </td></tr>").toList))
    ++
    ("

                ").toList
    ++
    (if github.isEmpty then [] else (
      ("
                <!-- GitHub -->
                <tr><td style=\"padding:0 0 18px;\">
                  <p style=\"margin:0 0 4px;font-size:10px;font-weight:700;letter-spacing:0.15em;text-transform:uppercase;color:#F97316;\">GitHub</p>
                  <p style=\"margin:0;font-size:14px;\"><a href=\"").toList
      ++
      github
      ++
      ("\" style=\"color:#F97316;text-decoration:none;\">").toList
      ++
      github
      ++
      ("</a></p>
                </td></tr>").toList))
    ++
    ("

                <!-- About -->
                <tr><td style=\"padding:0 0 4px;\">
                  <p style=\"margin:0 0 10px;font-size:10px;font-weight:700;letter-spacing:0.15em;text-transform:uppercase;color:#F97316;\">About the Candidate</p>
                  <div style=\"background:#F8F8F8;border-radius:12px;padding:16px 20px;border:1px solid rgba(0,0,0,0.06);\">
                    <p style=\"margin:0;font-size:14px;line-height:1.7;color:#444444;white-space:pre-wrap;\">").toList
    ++
    about
    ++
    ("</p>
                  </div>
                </td></tr>

              </table>

              <!-- CV notice -->
              <table width=\"100%\" cellpadding=\"0\" cellspacing=\"0\" style=\"margin-top:28px;background:#F8F8F8;border-radius:12px;border:1px solid rgba(0,0,0,0.06);padding:16px 20px;\">
                <tr>
                  <td>
                    <p style=\"margin:0;font-size:13px;color:#555555;\">
                      📎 <strong>CV is attached</strong> to this email as <em>").toList
    ++
    (cvDisplayName cvFile)
    ++
    ("</em>.
                    </p>
                  </td>
                </tr>
              </table>

              <!-- Reply CTA -->
              <table width=\"100%\" cellpadding=\"0\" cellspacing=\"0\" style=\"margin-top:28px;\">
                <tr>
                  <td>
                    <a href=\"mailto:").toList
    ++
    email
    ++
    ("?subject=Re: Your application for ").toList
    ++
    (encodeURIComponent (if jobTitle.isEmpty then ("the position").toList else jobTitle))
    ++
    (" at 7ZeroMedia\"
                       style=\"display:inline-block;background:linear-gradient(135deg,#F97316 0%,#ea6c0a 100%);color:#ffffff;font-size:13px;font-weight:700;text-decoration:none;padding:12px 28px;border-radius:10px;\">
                      Reply to ").toList
    ++
    name
    ++
    ("
                    </a>
                  </td>
                </tr>
              </table>
            </td>
          </tr>

          <!-- Footer -->
          <tr>
            <td style=\"padding:20px 36px;border-top:1px solid rgba(0,0,0,0.06);\">
              <p style=\"margin:0;font-size:11px;color:rgba(0,0,0,0.35);line-height:1.6;\">
                Sent automatically from the 7ZeroMedia careers form. Do not reply to this system email.
              </p>
            </td>
          </tr>

        </table>
      </td>
    </tr>
  </table>
</body>
</html>").toList)

/-- The validation error map of a parsed careers form. -/
def errorsOf (b : Form) (parseUrl : List Char → Option UrlParts) : List (String × String) :=
  errorsFor (sanitize b.name 120) (sanitize b.email 254) (sanitize b.portfolio 512)
    (sanitize b.linkedin 512) (sanitize b.github 512) (sanitize b.experience 60)
    (sanitize b.about 4000) (cvFileOf b.cv) parseUrl

/-- The careers `POST` handler. `body` is the parsed multipart form (`none`
when `req.formData()` threw); `dispatch` is the outcome of
`transporter.sendMail`; `parseUrl` is the external WHATWG URL parser. -/
def POST (body : Option Form) (dispatch : Option (List Char)) (env : Env)
    (parseUrl : List Char → Option UrlParts) : HandlerResult :=
  match body with
  | none => ⟨⟨400, .errMsg "Invalid request body."⟩, none, false⟩
  | some b =>
    if entryTruthy b.website then ⟨⟨200, .okTrue⟩, none, false⟩
    else
      let name := sanitize b.name 120
      let email := sanitize b.email 254
      let portfolio := sanitize b.portfolio 512
      let linkedin := sanitize b.linkedin 512
      let github := sanitize b.github 512
      let experience := sanitize b.experience 60
      let about := sanitize b.about 4000
      let jobTitle := sanitize b.jobTitle 120
      let cvFile := cvFileOf b.cv
      let errors := errorsFor name email portfolio linkedin github experience about cvFile parseUrl
      if errors.length > 0 then ⟨⟨422, .fieldErrors errors⟩, none, false⟩
      else
        let msg : MailMsg :=
          { «from» := match env.SMTP_HR_FROM with
              | some f => f
              | none => ("\"7ZeroMedia Careers\" <").toList ++ envStr env.SMTP_HR_USER ++ (">").toList
            «to» := ("hr@laneway.in").toList
            replyTo := email
            subject := ("New Application: ").toList ++
              (if jobTitle.isEmpty then ("Open Position").toList else jobTitle) ++
              (" — ").toList ++ name
            text := textBody jobTitle name email experience portfolio linkedin github about
            html := htmlBody jobTitle name email experience portfolio linkedin github about cvFile
            attachments := match cvFile with
              | some f => [f]
              | none => [] }
        match dispatch with
        | some _err =>
          ⟨⟨500, .errMsg "Unable to process your application at this time. Please try again."⟩,
           some msg,
           env.NODE_ENV = some ("development").toList⟩
        | none => ⟨⟨200, .okTrue⟩, some msg, false⟩

end Careers

/-! ## Tag-free invariant: no `<...>` substring survives the sanitizers -/

/-- `hasLtGt l`: `l` has a `'<'` with some `'>'` after it, i.e. a substring of
the shape `<...>`. -/
def hasLtGt : List Char → Bool
  | [] => false
  | c :: rest => ((c == '<') && rest.contains '>') || hasLtGt rest

theorem hasLtGt_of_decomp (pre mid post : List Char) :
    hasLtGt (pre ++ '<' :: (mid ++ '>' :: post)) = true := by
  induction pre with
  | nil => simp [hasLtGt]
  | cons c pre ih => simp [hasLtGt, ih]

theorem hasLtGt_eq_false_of_not_mem : ∀ {l : List Char}, '>' ∉ l → hasLtGt l = false := by
  intro l
  induction l with
  | nil => intro _; rfl
  | cons c rest ih =>
    intro h
    have hc : '>' ∉ rest := fun hm => h (List.mem_cons_of_mem _ hm)
    have h1 : rest.contains '>' = false := by simpa using hc
    simp only [hasLtGt, h1, Bool.and_false, Bool.false_or]
    exact ih hc

theorem stripTagsAux_hasLtGt (l : List Char) :
    hasLtGt (stripTagsAux none l) = false ∧
      ∀ buf, '>' ∉ buf → hasLtGt (stripTagsAux (some buf) l) = false := by
  induction l with
  | nil =>
    refine ⟨rfl, fun buf h => ?_⟩
    show hasLtGt buf.reverse = false
    have h2 : '>' ∉ buf.reverse := by simpa using h
    exact hasLtGt_eq_false_of_not_mem h2
  | cons c rest ih =>
    constructor
    · show hasLtGt (if c = '<' then stripTagsAux (some [c]) rest
        else c :: stripTagsAux none rest) = false
      split
      · next hc =>
        subst hc
        exact ih.2 ['<'] (by decide)
      · next hc =>
        have h2 : (c == '<') = false := by simpa using hc
        simp only [hasLtGt, h2, Bool.false_and, Bool.false_or]
        exact ih.1
    · intro buf hbuf
      show hasLtGt (if c = '>' then stripTagsAux none rest
        else stripTagsAux (some (c :: buf)) rest) = false
      split
      · exact ih.1
      · next hc =>
        refine ih.2 (c :: buf) ?_
        intro hm
        rcases List.mem_cons.mp hm with h1 | h1
        · exact hc h1.symm
        · exact hbuf h1

theorem hasLtGt_stripTags (l : List Char) : hasLtGt (stripTags l) = false :=
  (stripTagsAux_hasLtGt l).1

theorem contains_gt_mono {l₁ l₂ : List Char} (h : List.Sublist l₁ l₂)
    (hc : l₁.contains '>' = true) : l₂.contains '>' = true := by
  have hm : '>' ∈ l₁ := by simpa using hc
  simpa using h.subset hm

theorem hasLtGt_sublist : ∀ {l₁ l₂ : List Char}, List.Sublist l₁ l₂ →
    hasLtGt l₁ = true → hasLtGt l₂ = true := by
  intro l₁ l₂ h
  induction h with
  | slnil => intro h1; exact h1
  | cons a _ ih =>
    intro h1
    have := ih h1
    simp [hasLtGt, this]
  | cons₂ a h ih =>
    intro h1
    simp only [hasLtGt, Bool.or_eq_true, Bool.and_eq_true] at h1 ⊢
    rcases h1 with ⟨ha, hmem⟩ | h1
    · left
      exact ⟨ha, contains_gt_mono h hmem⟩
    · right; exact ih h1

theorem hasLtGt_eq_false_sublist {l₁ l₂ : List Char} (h : List.Sublist l₁ l₂)
    (h2 : hasLtGt l₂ = false) : hasLtGt l₁ = false := by
  cases hh : hasLtGt l₁
  · rfl
  · rw [hasLtGt_sublist h hh] at h2
    cases h2

theorem jsTrim_sublist (l : List Char) : List.Sublist (jsTrim l) l := by
  unfold jsTrim
  have h1 : List.Sublist ((l.dropWhile isJsWs).reverse.dropWhile isJsWs)
      (l.dropWhile isJsWs).reverse :=
    List.dropWhile_sublist _
  have h2 : List.Sublist (((l.dropWhile isJsWs).reverse.dropWhile isJsWs).reverse)
      (l.dropWhile isJsWs) := by
    have := h1.reverse
    simpa using this
  exact h2.trans (List.dropWhile_sublist _)

theorem mem_gt_replaceCRLF : ∀ (l : List Char), ('>' ∈ replaceCRLF l) ↔ '>' ∈ l := by
  intro l
  induction l with
  | nil => simp [replaceCRLF]
  | cons d rest ih =>
    show ('>' ∈ (if d = '\r' || d = '\n' then ' ' else d) :: replaceCRLF rest) ↔ _
    by_cases hd : (d = '\r' || d = '\n') = true
    · rw [if_pos hd]
      have hdgt : ¬ ('>' = d) := by
        rcases Bool.or_eq_true_iff.mp hd with h | h
        · rw [of_decide_eq_true h]; decide
        · rw [of_decide_eq_true h]; decide
      simp only [List.mem_cons, ih]
      constructor
      · rintro (h | h)
        · exact absurd h (by decide)
        · exact Or.inr h
      · rintro (h | h)
        · exact absurd h hdgt
        · exact Or.inr h
    · rw [if_neg hd]
      simp only [List.mem_cons, ih]

theorem mem_replaceCRLF_not_crlf : ∀ {c : Char} (l : List Char),
    c ∈ replaceCRLF l → c ≠ '\r' ∧ c ≠ '\n' := by
  intro c l
  induction l with
  | nil => intro h; simp [replaceCRLF] at h
  | cons d rest ih =>
    intro h
    have h' : c ∈ (if d = '\r' || d = '\n' then ' ' else d) :: replaceCRLF rest := h
    rcases List.mem_cons.mp h' with h1 | h1
    · by_cases hd : (d = '\r' || d = '\n') = true
      · rw [if_pos hd] at h1
        subst h1
        exact ⟨by decide, by decide⟩
      · rw [if_neg hd] at h1
        subst h1
        have hd2 : (c = '\r' || c = '\n') = false := by
          cases hx : (c = '\r' || c = '\n')
          · rfl
          · exact absurd hx hd
        simpa using hd2
    · exact ih h1

theorem hasLtGt_replaceCRLF : ∀ (l : List Char),
    hasLtGt (replaceCRLF l) = hasLtGt l := by
  intro l
  induction l with
  | nil => rfl
  | cons c rest ih =>
    show hasLtGt ((if c = '\r' || c = '\n' then ' ' else c) :: replaceCRLF rest) = _
    have hcontains : (replaceCRLF rest).contains '>' = rest.contains '>' := by
      simp [mem_gt_replaceCRLF]
    by_cases hc : (c = '\r' || c = '\n') = true
    · have h2 : (c == '<') = false := by
        rcases Bool.or_eq_true_iff.mp hc with h | h
        · simp [of_decide_eq_true h]
        · simp [of_decide_eq_true h]
      rw [if_pos hc]
      show ((' ' == '<') && (replaceCRLF rest).contains '>' || hasLtGt (replaceCRLF rest)) = _
      show (false && _ || hasLtGt (replaceCRLF rest)) = _
      rw [Bool.false_and, Bool.false_or, ih]
      show _ = ((c == '<') && rest.contains '>' || hasLtGt rest)
      rw [h2, Bool.false_and, Bool.false_or]
    · have hc2 : (c = '\r' || c = '\n') = false := by
        cases hx : (c = '\r' || c = '\n')
        · rfl
        · exact absurd hx hc
      rw [if_neg hc]
      show ((c == '<') && (replaceCRLF rest).contains '>' || hasLtGt (replaceCRLF rest)) = _
      rw [hcontains, ih]
      rfl

theorem hasLtGt_contact_sanitize (v : Option JsonVal) (m : Nat) :
    hasLtGt (Contact.sanitize v m) = false := by
  match v with
  | none => rfl
  | some (.num _) => rfl
  | some (.boolean _) => rfl
  | some .null => rfl
  | some .obj => rfl
  | some (.str s) =>
    show hasLtGt ((jsTrim (replaceCRLF (stripTags s))).take m) = false
    have h0 : hasLtGt (replaceCRLF (stripTags s)) = false := by
      rw [hasLtGt_replaceCRLF]
      exact hasLtGt_stripTags s
    have h1 : hasLtGt (jsTrim (replaceCRLF (stripTags s))) = false :=
      hasLtGt_eq_false_sublist (jsTrim_sublist _) h0
    exact hasLtGt_eq_false_sublist (List.take_sublist _ _) h1

theorem hasLtGt_careers_sanitize (w : Option FormEntry) (m : Nat) :
    hasLtGt (Careers.sanitize w m) = false := by
  match w with
  | none => rfl
  | some (.file _) => rfl
  | some (.str s) =>
    show hasLtGt ((jsTrim (stripTags s)).take m) = false
    have h1 : hasLtGt (jsTrim (stripTags s)) = false :=
      hasLtGt_eq_false_sublist (jsTrim_sublist _) (hasLtGt_stripTags s)
    exact hasLtGt_eq_false_sublist (List.take_sublist _ _) h1

/-! ## escapeHtml: characterization, entities, and invertibility -/

/-- The per-character form of `escapeHtml`: what one character becomes. -/
def escChar (c : Char) : List Char :=
  if c = '&' then ("&amp;").toList
  else if c = '"' then ("&quot;").toList
  else if c = '\'' then ("&#39;").toList
  else if c = '<' then ("&lt;").toList
  else if c = '>' then ("&gt;").toList
  else [c]

def escapeHtmlChar : List Char → List Char
  | [] => []
  | c :: rest => escChar c ++ escapeHtmlChar rest

theorem replaceAll_append (c : Char) (rep : List Char) :
    ∀ (a b : List Char),
      replaceAll c rep (a ++ b) = replaceAll c rep a ++ replaceAll c rep b := by
  intro a b
  induction a with
  | nil => rfl
  | cons x xs ih =>
    show (if x = c then rep else [x]) ++ replaceAll c rep (xs ++ b)
      = ((if x = c then rep else [x]) ++ replaceAll c rep xs) ++ replaceAll c rep b
    rw [ih, List.append_assoc]

theorem escapeHtml_cons (c : Char) (rest : List Char) :
    escapeHtml (c :: rest) = escChar c ++ escapeHtml rest := by
  show replaceAll '>' ("&gt;").toList
      (replaceAll '<' ("&lt;").toList
        (replaceAll '\'' ("&#39;").toList
          (replaceAll '"' ("&quot;").toList
            ((if c = '&' then ("&amp;").toList else [c])
              ++ replaceAll '&' ("&amp;").toList rest)))) = _
  rw [replaceAll_append, replaceAll_append, replaceAll_append, replaceAll_append]
  congr 1
  by_cases h1 : c = '&'
  · subst h1; rfl
  · by_cases h2 : c = '"'
    · subst h2; rw [if_neg h1]; rfl
    · by_cases h3 : c = '\''
      · subst h3; rw [if_neg h1]; rfl
      · by_cases h4 : c = '<'
        · subst h4; rw [if_neg h1]; rfl
        · by_cases h5 : c = '>'
          · subst h5; rw [if_neg h1]; rfl
          · rw [if_neg h1]
            simp [replaceAll, escChar, h1, h2, h3, h4, h5]

theorem escapeHtml_eq_escapeHtmlChar : ∀ (s : List Char), escapeHtml s = escapeHtmlChar s := by
  intro s
  induction s with
  | nil => rfl
  | cons c rest ih => rw [escapeHtml_cons, ih]; rfl

/-- Greedy entity decoder: inverse of `escapeHtml` on its image. The five
entity spellings have pairwise distinct first characters after the `'&'`, so
the decode is unambiguous. -/
def unescapeHtml : List Char → List Char
  | [] => []
  | c :: rest =>
    if c = '&' then
      if ("amp;").toList.isPrefixOf rest then '&' :: unescapeHtml (rest.drop 4)
      else if ("quot;").toList.isPrefixOf rest then '"' :: unescapeHtml (rest.drop 5)
      else if ("#39;").toList.isPrefixOf rest then '\'' :: unescapeHtml (rest.drop 4)
      else if ("lt;").toList.isPrefixOf rest then '<' :: unescapeHtml (rest.drop 3)
      else if ("gt;").toList.isPrefixOf rest then '>' :: unescapeHtml (rest.drop 3)
      else c :: unescapeHtml rest
    else c :: unescapeHtml rest
termination_by l => l.length
decreasing_by
  all_goals simp [List.length_drop]
  all_goals omega

def entityList : List (List Char) :=
  [("amp;").toList, ("quot;").toList, ("#39;").toList, ("lt;").toList, ("gt;").toList]

/-- Every `'&'` in the list starts exactly one of the five entity spellings. -/
def ampEntityOk : List Char → Bool
  | [] => true
  | c :: rest =>
    (if c = '&' then (entityList.countP (fun e => e.isPrefixOf rest)) == 1 else true)
      && ampEntityOk rest

theorem isPrefixOf_append_self : ∀ (p l : List Char), p.isPrefixOf (p ++ l) = true := by
  intro p l
  induction p with
  | nil => simp
  | cons a as ih =>
    show List.isPrefixOf (a :: as) ((a :: as) ++ l) = true
    rw [List.cons_append, List.isPrefixOf_cons₂_self]
    exact ih

theorem isPrefixOf_cons_ne (a b : Char) (as bs : List Char) (h : ¬ a = b) :
    (a :: as).isPrefixOf (b :: bs) = false := by
  rw [List.isPrefixOf_cons₂]
  have hab : (a == b) = false := by simpa using h
  rw [hab, Bool.false_and]

theorem ampEntityOk_cons_not_amp (c : Char) (l : List Char) (h : ¬ c = '&') :
    ampEntityOk (c :: l) = ampEntityOk l := by
  show ((if c = '&' then (entityList.countP (fun e => e.isPrefixOf l)) == 1 else true)
    && ampEntityOk l) = ampEntityOk l
  rw [if_neg h, Bool.true_and]

theorem ampEntityOk_cons_amp (l : List Char)
    (h : entityList.countP (fun e => e.isPrefixOf l) = 1) :
    ampEntityOk ('&' :: l) = ampEntityOk l := by
  show ((if ('&' : Char) = '&' then (entityList.countP (fun e => e.isPrefixOf l)) == 1 else true)
    && ampEntityOk l) = ampEntityOk l
  rw [if_pos rfl, h]
  rfl

theorem countP_entity_amp (l : List Char) :
    entityList.countP (fun e => e.isPrefixOf (("amp;").toList ++ l)) = 1 := by
  have h1 : ("amp;").toList.isPrefixOf (("amp;").toList ++ l) = true :=
    isPrefixOf_append_self _ _
  have h2 : ("quot;").toList.isPrefixOf (("amp;").toList ++ l) = false :=
    isPrefixOf_cons_ne 'q' 'a' (("uot;").toList) ((("mp;").toList) ++ l) (by decide)
  have h3 : ("#39;").toList.isPrefixOf (("amp;").toList ++ l) = false :=
    isPrefixOf_cons_ne '#' 'a' (("39;").toList) ((("mp;").toList) ++ l) (by decide)
  have h4 : ("lt;").toList.isPrefixOf (("amp;").toList ++ l) = false :=
    isPrefixOf_cons_ne 'l' 'a' (("t;").toList) ((("mp;").toList) ++ l) (by decide)
  have h5 : ("gt;").toList.isPrefixOf (("amp;").toList ++ l) = false :=
    isPrefixOf_cons_ne 'g' 'a' (("t;").toList) ((("mp;").toList) ++ l) (by decide)
  simp [entityList, List.countP_cons, h1, h2, h3, h4, h5]

theorem countP_entity_quot (l : List Char) :
    entityList.countP (fun e => e.isPrefixOf (("quot;").toList ++ l)) = 1 := by
  have h1 : ("amp;").toList.isPrefixOf (("quot;").toList ++ l) = false :=
    isPrefixOf_cons_ne 'a' 'q' (("mp;").toList) ((("uot;").toList) ++ l) (by decide)
  have h2 : ("quot;").toList.isPrefixOf (("quot;").toList ++ l) = true :=
    isPrefixOf_append_self _ _
  have h3 : ("#39;").toList.isPrefixOf (("quot;").toList ++ l) = false :=
    isPrefixOf_cons_ne '#' 'q' (("39;").toList) ((("uot;").toList) ++ l) (by decide)
  have h4 : ("lt;").toList.isPrefixOf (("quot;").toList ++ l) = false :=
    isPrefixOf_cons_ne 'l' 'q' (("t;").toList) ((("uot;").toList) ++ l) (by decide)
  have h5 : ("gt;").toList.isPrefixOf (("quot;").toList ++ l) = false :=
    isPrefixOf_cons_ne 'g' 'q' (("t;").toList) ((("uot;").toList) ++ l) (by decide)
  simp [entityList, List.countP_cons, h1, h2, h3, h4, h5]

theorem countP_entity_apos (l : List Char) :
    entityList.countP (fun e => e.isPrefixOf (("#39;").toList ++ l)) = 1 := by
  have h1 : ("amp;").toList.isPrefixOf (("#39;").toList ++ l) = false :=
    isPrefixOf_cons_ne 'a' '#' (("mp;").toList) ((("39;").toList) ++ l) (by decide)
  have h2 : ("quot;").toList.isPrefixOf (("#39;").toList ++ l) = false :=
    isPrefixOf_cons_ne 'q' '#' (("uot;").toList) ((("39;").toList) ++ l) (by decide)
  have h3 : ("#39;").toList.isPrefixOf (("#39;").toList ++ l) = true :=
    isPrefixOf_append_self _ _
  have h4 : ("lt;").toList.isPrefixOf (("#39;").toList ++ l) = false :=
    isPrefixOf_cons_ne 'l' '#' (("t;").toList) ((("39;").toList) ++ l) (by decide)
  have h5 : ("gt;").toList.isPrefixOf (("#39;").toList ++ l) = false :=
    isPrefixOf_cons_ne 'g' '#' (("t;").toList) ((("39;").toList) ++ l) (by decide)
  simp [entityList, List.countP_cons, h1, h2, h3, h4, h5]

theorem countP_entity_lt (l : List Char) :
    entityList.countP (fun e => e.isPrefixOf (("lt;").toList ++ l)) = 1 := by
  have h1 : ("amp;").toList.isPrefixOf (("lt;").toList ++ l) = false :=
    isPrefixOf_cons_ne 'a' 'l' (("mp;").toList) ((("t;").toList) ++ l) (by decide)
  have h2 : ("quot;").toList.isPrefixOf (("lt;").toList ++ l) = false :=
    isPrefixOf_cons_ne 'q' 'l' (("uot;").toList) ((("t;").toList) ++ l) (by decide)
  have h3 : ("#39;").toList.isPrefixOf (("lt;").toList ++ l) = false :=
    isPrefixOf_cons_ne '#' 'l' (("39;").toList) ((("t;").toList) ++ l) (by decide)
  have h4 : ("lt;").toList.isPrefixOf (("lt;").toList ++ l) = true :=
    isPrefixOf_append_self _ _
  have h5 : ("gt;").toList.isPrefixOf (("lt;").toList ++ l) = false :=
    isPrefixOf_cons_ne 'g' 'l' (("t;").toList) ((("t;").toList) ++ l) (by decide)
  simp [entityList, List.countP_cons, h1, h2, h3, h4, h5]

theorem countP_entity_gt (l : List Char) :
    entityList.countP (fun e => e.isPrefixOf (("gt;").toList ++ l)) = 1 := by
  have h1 : ("amp;").toList.isPrefixOf (("gt;").toList ++ l) = false :=
    isPrefixOf_cons_ne 'a' 'g' (("mp;").toList) ((("t;").toList) ++ l) (by decide)
  have h2 : ("quot;").toList.isPrefixOf (("gt;").toList ++ l) = false :=
    isPrefixOf_cons_ne 'q' 'g' (("uot;").toList) ((("t;").toList) ++ l) (by decide)
  have h3 : ("#39;").toList.isPrefixOf (("gt;").toList ++ l) = false :=
    isPrefixOf_cons_ne '#' 'g' (("39;").toList) ((("t;").toList) ++ l) (by decide)
  have h4 : ("lt;").toList.isPrefixOf (("gt;").toList ++ l) = false :=
    isPrefixOf_cons_ne 'l' 'g' (("t;").toList) ((("t;").toList) ++ l) (by decide)
  have h5 : ("gt;").toList.isPrefixOf (("gt;").toList ++ l) = true :=
    isPrefixOf_append_self _ _
  simp [entityList, List.countP_cons, h1, h2, h3, h4, h5]

theorem ampEntityOk_append_tail : ∀ (p : List Char), '&' ∉ p →
    ∀ (l : List Char), ampEntityOk (p ++ l) = ampEntityOk l := by
  intro p
  induction p with
  | nil => intro _ l; rfl
  | cons c cs ih =>
    intro h l
    have hc : ¬ c = '&' := by
      intro hh
      exact h (hh ▸ List.mem_cons_self _ _)
    have hcs : '&' ∉ cs := fun hm => h (List.mem_cons_of_mem _ hm)
    show ampEntityOk (c :: (cs ++ l)) = ampEntityOk l
    rw [ampEntityOk_cons_not_amp c _ hc, ih hcs l]

theorem ampEntityOk_escChar (c : Char) (l : List Char) :
    ampEntityOk (escChar c ++ l) = ampEntityOk l := by
  by_cases h1 : c = '&'
  · subst h1
    show ampEntityOk ('&' :: (("amp;").toList ++ l)) = ampEntityOk l
    rw [ampEntityOk_cons_amp _ (countP_entity_amp l)]
    exact ampEntityOk_append_tail (("amp;").toList) (by decide) l
  · by_cases h2 : c = '"'
    · subst h2
      show ampEntityOk ('&' :: (("quot;").toList ++ l)) = ampEntityOk l
      rw [ampEntityOk_cons_amp _ (countP_entity_quot l)]
      exact ampEntityOk_append_tail (("quot;").toList) (by decide) l
    · by_cases h3 : c = '\''
      · subst h3
        show ampEntityOk ('&' :: (("#39;").toList ++ l)) = ampEntityOk l
        rw [ampEntityOk_cons_amp _ (countP_entity_apos l)]
        exact ampEntityOk_append_tail (("#39;").toList) (by decide) l
      · by_cases h4 : c = '<'
        · subst h4
          show ampEntityOk ('&' :: (("lt;").toList ++ l)) = ampEntityOk l
          rw [ampEntityOk_cons_amp _ (countP_entity_lt l)]
          exact ampEntityOk_append_tail (("lt;").toList) (by decide) l
        · by_cases h5 : c = '>'
          · subst h5
            show ampEntityOk ('&' :: (("gt;").toList ++ l)) = ampEntityOk l
            rw [ampEntityOk_cons_amp _ (countP_entity_gt l)]
            exact ampEntityOk_append_tail (("gt;").toList) (by decide) l
          · have he : escChar c = [c] := by simp [escChar, h1, h2, h3, h4, h5]
            rw [he]
            show ampEntityOk (c :: l) = ampEntityOk l
            exact ampEntityOk_cons_not_amp c l h1

theorem ampEntityOk_escapeHtmlChar : ∀ (s : List Char),
    ampEntityOk (escapeHtmlChar s) = true := by
  intro s
  induction s with
  | nil => rfl
  | cons c rest ih =>
    show ampEntityOk (escChar c ++ escapeHtmlChar rest) = true
    rw [ampEntityOk_escChar, ih]

theorem unescapeHtml_cons (c : Char) (rest : List Char) :
    unescapeHtml (c :: rest) =
      if c = '&' then
        if ("amp;").toList.isPrefixOf rest then '&' :: unescapeHtml (rest.drop 4)
        else if ("quot;").toList.isPrefixOf rest then '"' :: unescapeHtml (rest.drop 5)
        else if ("#39;").toList.isPrefixOf rest then '\'' :: unescapeHtml (rest.drop 4)
        else if ("lt;").toList.isPrefixOf rest then '<' :: unescapeHtml (rest.drop 3)
        else if ("gt;").toList.isPrefixOf rest then '>' :: unescapeHtml (rest.drop 3)
        else c :: unescapeHtml rest
      else c :: unescapeHtml rest := by
  rw [unescapeHtml]

theorem unescapeHtml_escChar (c : Char) (l : List Char) :
    unescapeHtml (escChar c ++ l) = c :: unescapeHtml l := by
  by_cases h1 : c = '&'
  · subst h1
    show unescapeHtml ('&' :: (("amp;").toList ++ l)) = '&' :: unescapeHtml l
    have ha : ("amp;").toList.isPrefixOf (("amp;").toList ++ l) = true :=
      isPrefixOf_append_self _ _
    rw [unescapeHtml_cons, if_pos rfl, ha]
    simp
  · by_cases h2 : c = '"'
    · subst h2
      show unescapeHtml ('&' :: (("quot;").toList ++ l)) = '"' :: unescapeHtml l
      have ha : ("amp;").toList.isPrefixOf (("quot;").toList ++ l) = false :=
        isPrefixOf_cons_ne 'a' 'q' (("mp;").toList) ((("uot;").toList) ++ l) (by decide)
      have hb : ("quot;").toList.isPrefixOf (("quot;").toList ++ l) = true :=
        isPrefixOf_append_self _ _
      rw [unescapeHtml_cons, if_pos rfl, ha, hb]
      simp
    · by_cases h3 : c = '\''
      · subst h3
        show unescapeHtml ('&' :: (("#39;").toList ++ l)) = '\'' :: unescapeHtml l
        have ha : ("amp;").toList.isPrefixOf (("#39;").toList ++ l) = false :=
          isPrefixOf_cons_ne 'a' '#' (("mp;").toList) ((("39;").toList) ++ l) (by decide)
        have hb : ("quot;").toList.isPrefixOf (("#39;").toList ++ l) = false :=
          isPrefixOf_cons_ne 'q' '#' (("uot;").toList) ((("39;").toList) ++ l) (by decide)
        have hc : ("#39;").toList.isPrefixOf (("#39;").toList ++ l) = true :=
          isPrefixOf_append_self _ _
        rw [unescapeHtml_cons, if_pos rfl, ha, hb, hc]
        simp
      · by_cases h4 : c = '<'
        · subst h4
          show unescapeHtml ('&' :: (("lt;").toList ++ l)) = '<' :: unescapeHtml l
          have ha : ("amp;").toList.isPrefixOf (("lt;").toList ++ l) = false :=
            isPrefixOf_cons_ne 'a' 'l' (("mp;").toList) ((("t;").toList) ++ l) (by decide)
          have hb : ("quot;").toList.isPrefixOf (("lt;").toList ++ l) = false :=
            isPrefixOf_cons_ne 'q' 'l' (("uot;").toList) ((("t;").toList) ++ l) (by decide)
          have hc : ("#39;").toList.isPrefixOf (("lt;").toList ++ l) = false :=
            isPrefixOf_cons_ne '#' 'l' (("39;").toList) ((("t;").toList) ++ l) (by decide)
          have hd : ("lt;").toList.isPrefixOf (("lt;").toList ++ l) = true :=
            isPrefixOf_append_self _ _
          rw [unescapeHtml_cons, if_pos rfl, ha, hb, hc, hd]
          simp
        · by_cases h5 : c = '>'
          · subst h5
            show unescapeHtml ('&' :: (("gt;").toList ++ l)) = '>' :: unescapeHtml l
            have ha : ("amp;").toList.isPrefixOf (("gt;").toList ++ l) = false :=
              isPrefixOf_cons_ne 'a' 'g' (("mp;").toList) ((("t;").toList) ++ l) (by decide)
            have hb : ("quot;").toList.isPrefixOf (("gt;").toList ++ l) = false :=
              isPrefixOf_cons_ne 'q' 'g' (("uot;").toList) ((("t;").toList) ++ l) (by decide)
            have hc : ("#39;").toList.isPrefixOf (("gt;").toList ++ l) = false :=
              isPrefixOf_cons_ne '#' 'g' (("39;").toList) ((("t;").toList) ++ l) (by decide)
            have hd : ("lt;").toList.isPrefixOf (("gt;").toList ++ l) = false :=
              isPrefixOf_cons_ne 'l' 'g' (("t;").toList) ((("t;").toList) ++ l) (by decide)
            have he : ("gt;").toList.isPrefixOf (("gt;").toList ++ l) = true :=
              isPrefixOf_append_self _ _
            rw [unescapeHtml_cons, if_pos rfl, ha, hb, hc, hd, he]
            simp
          · have he : escChar c = [c] := by simp [escChar, h1, h2, h3, h4, h5]
            rw [he]
            show unescapeHtml (c :: l) = c :: unescapeHtml l
            rw [unescapeHtml_cons, if_neg h1]

theorem unescapeHtml_escapeHtmlChar : ∀ (s : List Char),
    unescapeHtml (escapeHtmlChar s) = s := by
  intro s
  induction s with
  | nil =>
    show unescapeHtml [] = []
    rw [unescapeHtml]
  | cons c rest ih =>
    show unescapeHtml (escChar c ++ escapeHtmlChar rest) = _
    rw [unescapeHtml_escChar, ih]

theorem unescapeHtml_escapeHtml (s : List Char) : unescapeHtml (escapeHtml s) = s := by
  rw [escapeHtml_eq_escapeHtmlChar]
  exact unescapeHtml_escapeHtmlChar s

theorem mem_escChar_not_raw (c x : Char) (hx : x ∈ escChar c) :
    x ≠ '<' ∧ x ≠ '>' ∧ x ≠ '"' ∧ x ≠ '\'' := by
  by_cases h1 : c = '&'
  · subst h1
    exact (by decide : ∀ y ∈ ("&amp;").toList, y ≠ '<' ∧ y ≠ '>' ∧ y ≠ '"' ∧ y ≠ '\'') x
      (by simpa [escChar] using hx)
  · by_cases h2 : c = '"'
    · subst h2
      exact (by decide : ∀ y ∈ ("&quot;").toList, y ≠ '<' ∧ y ≠ '>' ∧ y ≠ '"' ∧ y ≠ '\'') x
        (by simpa [escChar] using hx)
    · by_cases h3 : c = '\''
      · subst h3
        exact (by decide : ∀ y ∈ ("&#39;").toList, y ≠ '<' ∧ y ≠ '>' ∧ y ≠ '"' ∧ y ≠ '\'') x
          (by simpa [escChar] using hx)
      · by_cases h4 : c = '<'
        · subst h4
          exact (by decide : ∀ y ∈ ("&lt;").toList, y ≠ '<' ∧ y ≠ '>' ∧ y ≠ '"' ∧ y ≠ '\'') x
            (by simpa [escChar] using hx)
        · by_cases h5 : c = '>'
          · subst h5
            exact (by decide : ∀ y ∈ ("&gt;").toList, y ≠ '<' ∧ y ≠ '>' ∧ y ≠ '"' ∧ y ≠ '\'') x
              (by simpa [escChar] using hx)
          · have hxc : x = c := by simpa [escChar, h1, h2, h3, h4, h5] using hx
            subst hxc
            exact ⟨h4, h5, h2, h3⟩

theorem mem_escapeHtmlChar_not_raw : ∀ (s : List Char) (x : Char),
    x ∈ escapeHtmlChar s → x ≠ '<' ∧ x ≠ '>' ∧ x ≠ '"' ∧ x ≠ '\'' := by
  intro s
  induction s with
  | nil => intro x hx; simp [escapeHtmlChar] at hx
  | cons c rest ih =>
    intro x hx
    rcases List.mem_append.mp (by simpa [escapeHtmlChar] using hx) with h | h
    · exact mem_escChar_not_raw c x h
    · exact ih x h

/-! ## Concrete fixtures used by the claim theorems and witnesses -/

def prodEnv : Env :=
  ⟨some (("production").toList), none, some (("u@x.co").toList),
   none, some (("hr@x.co").toList)⟩

def devEnv : Env :=
  ⟨some (("development").toList), none, some (("u@x.co").toList),
   none, some (("hr@x.co").toList)⟩

/-- A URL parser that rejects everything (the fixtures below leave every URL
field empty, so it is never consulted). -/
def noUrl : List Char → Option Careers.UrlParts := fun _ => none

/-- A valid contact submission whose name contains an `'&'`. -/
def demoContactBody : Contact.Body :=
  { name := some (.str (("A&B").toList))
    email := some (.str (("a@b.co").toList))
    company := none
    service := none
    message := some (.str (("Hello there, need a quote!").toList))
    website := none }

/-- A valid careers submission whose name contains an `'&'` and whose optional
URL fields are absent. -/
def demoCareersForm : Careers.Form :=
  { name := some (.str (("A&B").toList))
    email := some (.str (("a@b.co").toList))
    portfolio := none
    linkedin := none
    github := none
    experience := some (.str (("Fresher").toList))
    about := some (.str (("I am excellent.").toList))
    jobTitle := none
    website := none
    cv := some (.file ⟨("cv.pdf").toList, ("application/pdf").toList, 1000⟩) }

def hpContactBody : Contact.Body :=
  { name := none, email := none, company := none, service := none,
    message := none, website := some (.str (("x").toList)) }

def hpCareersForm : Careers.Form :=
  { name := none, email := none, portfolio := none, linkedin := none,
    github := none, experience := none, about := none, jobTitle := none,
    website := some (.str (("x").toList)), cv := none }

/-- An invalid contact submission (every field missing). -/
def badContactBody : Contact.Body :=
  { name := none, email := none, company := none, service := none,
    message := none, website := none }

/-- An invalid careers submission (every field missing). -/
def badCareersForm : Careers.Form :=
  { name := none, email := none, portfolio := none, linkedin := none,
    github := none, experience := none, about := none, jobTitle := none,
    website := none, cv := none }

/-- The demo careers form with a zero-byte `text/plain` CV upload. -/
def zeroByteForm : Careers.Form :=
  { demoCareersForm with
    cv := some (.file ⟨("cv.txt").toList, ("text/plain").toList, 0⟩) }

/-! ## Claim theorems -/

/-- C2: on both pipelines, a parsed body whose `website` field is a non-empty
string makes the handler return `{ok: true}` (status 200) immediately: no mail
message is ever handed to the dispatcher and nothing is logged. -/
theorem honeypotShortCircuits :
    (∀ (b : Contact.Body) (d : Option (List Char)) (env : Env) (s : List Char),
      b.website = some (.str s) → s ≠ [] →
      Contact.POST (some b) d env = ⟨⟨200, .okTrue⟩, none, false⟩)
  ∧ (∀ (f : Careers.Form) (d : Option (List Char)) (env : Env)
      (p : List Char → Option Careers.UrlParts) (s : List Char),
      f.website = some (.str s) → s ≠ [] →
      Careers.POST (some f) d env p = ⟨⟨200, .okTrue⟩, none, false⟩) := by
  constructor
  · intro b d env s hw hs
    have ht : jsTruthy b.website = true := by
      rw [hw]
      cases s with
      | nil => exact absurd rfl hs
      | cons c r => rfl
    simp [Contact.POST, ht]
  · intro f d env p s hw hs
    have ht : entryTruthy f.website = true := by
      rw [hw]
      cases s with
      | nil => exact absurd rfl hs
      | cons c r => rfl
    simp [Careers.POST, ht]

/-- C2 witness: honeypot-tripping requests on both pipelines at concrete inputs. -/
theorem honeypotShortCircuits_witness :
    Contact.POST (some hpContactBody) none prodEnv = ⟨⟨200, .okTrue⟩, none, false⟩
  ∧ Careers.POST (some hpCareersForm) none prodEnv noUrl = ⟨⟨200, .okTrue⟩, none, false⟩ :=
  ⟨honeypotShortCircuits.1 hpContactBody none prodEnv (("x").toList) rfl (by decide),
   honeypotShortCircuits.2 hpCareersForm none prodEnv noUrl (("x").toList) rfl (by decide)⟩

/-- C3: for every input (string or not) and every length cap, the output of
either route's `sanitize` contains no substring of the form `<...>`: it never
decomposes as `pre ++ '<' :: mid ++ '>' :: post`. -/
theorem sanitizeOutputHasNoTagSubstring :
    ∀ (v : Option JsonVal) (w : Option FormEntry) (m₁ m₂ : Nat) (pre mid post : List Char),
      Contact.sanitize v m₁ ≠ pre ++ '<' :: (mid ++ '>' :: post)
      ∧ Careers.sanitize w m₂ ≠ pre ++ '<' :: (mid ++ '>' :: post) := by
  intro v w m₁ m₂ pre mid post
  constructor
  · intro he
    have h1 := hasLtGt_contact_sanitize v m₁
    rw [he, hasLtGt_of_decomp] at h1
    cases h1
  · intro he
    have h1 := hasLtGt_careers_sanitize w m₂
    rw [he, hasLtGt_of_decomp] at h1
    cases h1

def isStringField : Option JsonVal → Bool
  | some (.str _) => true
  | _ => false

def isStringEntry : Option FormEntry → Bool
  | some (.str _) => true
  | _ => false

/-- C9: both sanitizers are total functions of the whole input value domain:
every non-string input (missing key, null, number, boolean, object, and — on
the careers route — `File` entries) yields the empty string. -/
theorem sanitizeTotalOnNonStrings :
    (∀ (v : Option JsonVal) (m : Nat), isStringField v = false → Contact.sanitize v m = [])
  ∧ (∀ (w : Option FormEntry) (m : Nat), isStringEntry w = false → Careers.sanitize w m = [])
  ∧ (∀ (f : FileData) (m : Nat), Careers.sanitize (some (.file f)) m = []) := by
  refine ⟨?_, ?_, ?_⟩
  · intro v m hv
    match v with
    | none => rfl
    | some (.num _) => rfl
    | some (.boolean _) => rfl
    | some .null => rfl
    | some .obj => rfl
    | some (.str s) => simp [isStringField] at hv
  · intro w m hw
    match w with
    | none => rfl
    | some (.file _) => rfl
    | some (.str s) => simp [isStringEntry] at hw
  · intro f m
    rfl

/-- C9 witness: evaluated at `null`, a missing key, and a `File` entry. -/
theorem sanitizeTotalOnNonStrings_witness :
    Contact.sanitize (some .null) 120 = []
  ∧ Careers.sanitize none 120 = []
  ∧ Careers.sanitize (some (.file ⟨("cv.pdf").toList, ("application/pdf").toList, 7⟩)) 120 = [] :=
  ⟨sanitizeTotalOnNonStrings.1 (some .null) 120 (by decide),
   sanitizeTotalOnNonStrings.2.1 none 120 (by decide),
   sanitizeTotalOnNonStrings.2.2 ⟨("cv.pdf").toList, ("application/pdf").toList, 7⟩ 120⟩

/-- C10: `escapeHtml` replaces `'&'` first, so its output has no raw `'<'`,
`'>'`, `'"'` or `'\''`; every `'&'` of the output begins exactly one of the
five entities `&amp; &quot; &#39; &lt; &gt;` (`ampEntityOk`); greedy entity
decoding recovers the input exactly (no double escaping), so `escapeHtml` is
injective. -/
theorem escapeHtmlCharacterization :
    ∀ (s : List Char),
      (∀ c ∈ escapeHtml s, c ≠ '<' ∧ c ≠ '>' ∧ c ≠ '"' ∧ c ≠ '\'')
      ∧ ampEntityOk (escapeHtml s) = true
      ∧ unescapeHtml (escapeHtml s) = s
      ∧ (∀ t, escapeHtml t = escapeHtml s → t = s) := by
  intro s
  refine ⟨?_, ?_, unescapeHtml_escapeHtml s, ?_⟩
  · intro c hc
    rw [escapeHtml_eq_escapeHtmlChar] at hc
    exact mem_escapeHtmlChar_not_raw s c hc
  · rw [escapeHtml_eq_escapeHtmlChar]
    exact ampEntityOk_escapeHtmlChar s
  · intro t ht
    have h1 := unescapeHtml_escapeHtml t
    rw [ht, unescapeHtml_escapeHtml s] at h1
    exact h1.symm

/-- C4: on both pipelines the dispatcher receives a message only when the
validation error map is empty; with a non-empty error map the handler answers
422 carrying exactly that map, sends nothing and logs nothing. -/
theorem dispatchOnlyWhenValid :
    (∀ (b : Contact.Body) (d : Option (List Char)) (env : Env),
      (jsTruthy b.website = false → Contact.errorsOf b ≠ [] →
        Contact.POST (some b) d env = ⟨⟨422, .fieldErrors (Contact.errorsOf b)⟩, none, false⟩)
      ∧ ((Contact.POST (some b) d env).sent.isSome = true → Contact.errorsOf b = []))
  ∧ (∀ (f : Careers.Form) (d : Option (List Char)) (env : Env)
      (p : List Char → Option Careers.UrlParts),
      (entryTruthy f.website = false → Careers.errorsOf f p ≠ [] →
        Careers.POST (some f) d env p =
          ⟨⟨422, .fieldErrors (Careers.errorsOf f p)⟩, none, false⟩)
      ∧ ((Careers.POST (some f) d env p).sent.isSome = true → Careers.errorsOf f p = [])) := by
  constructor
  · intro b d env
    constructor
    · intro hw he
      have hlen : 0 < (Contact.errorsOf b).length := List.length_pos.mpr he
      simp only [Contact.errorsOf] at hlen ⊢
      simp [Contact.POST, hw, hlen]
    · intro hs
      by_cases hw : jsTruthy b.website
      · simp [Contact.POST, hw] at hs
      · by_cases he : Contact.errorsOf b = []
        · exact he
        · exfalso
          have hlen : 0 < (Contact.errorsOf b).length := List.length_pos.mpr he
          simp only [Contact.errorsOf] at hlen
          simp only [Bool.not_eq_true] at hw
          simp [Contact.POST, hw, hlen] at hs
  · intro f d env p
    constructor
    · intro hw he
      have hlen : 0 < (Careers.errorsOf f p).length := List.length_pos.mpr he
      simp only [Careers.errorsOf] at hlen ⊢
      simp [Careers.POST, hw, hlen]
    · intro hs
      by_cases hw : entryTruthy f.website
      · simp [Careers.POST, hw] at hs
      · by_cases he : Careers.errorsOf f p = []
        · exact he
        · exfalso
          have hlen : 0 < (Careers.errorsOf f p).length := List.length_pos.mpr he
          simp only [Careers.errorsOf] at hlen
          simp only [Bool.not_eq_true] at hw
          simp [Careers.POST, hw, hlen] at hs

/-- C4 witness: fully-invalid submissions on both pipelines get a 422 with the
error map and no dispatch. -/
theorem dispatchOnlyWhenValid_witness :
    Contact.POST (some badContactBody) none prodEnv
      = ⟨⟨422, .fieldErrors (Contact.errorsOf badContactBody)⟩, none, false⟩
  ∧ Careers.POST (some badCareersForm) none prodEnv noUrl
      = ⟨⟨422, .fieldErrors (Careers.errorsOf badCareersForm noUrl)⟩, none, false⟩ :=
  ⟨(dispatchOnlyWhenValid.1 badContactBody none prodEnv).1 (by decide) (by decide),
   (dispatchOnlyWhenValid.2 badCareersForm none prodEnv noUrl).1 (by decide) (by decide)⟩

theorem mem_ite_singleton {α : Type} {a x : α} {c : Prop} [Decidable c] :
    a ∈ (if c then [x] else []) ↔ c ∧ a = x := by
  split
  · next h => simp [h]
  · next h => simp [h]

/-- C5 counterexample: the claim requires a present file of a disallowed media
type to get the unsupported-type error regardless of its size, but a zero-byte
`text/plain` upload is treated as missing: it gets the CV-required error and
not the unsupported-type error. -/
theorem zeroByteFileGivesCvRequired :
    (("file", "Only PDF, DOC, or DOCX files are accepted.")
        ∉ Careers.errorsOf zeroByteForm noUrl)
  ∧ (("file", "A CV file is required.") ∈ Careers.errorsOf zeroByteForm noUrl) := by
  constructor
  · decide
  · decide

/-- C5 (amended): a missing CV — including a zero-byte upload, which
`cvFileOf` reduces to a missing file — yields the CV-required error; a present
file (positive size) of a media type outside the allow-list yields the
unsupported-type error whatever its size; with an allowed type, exactly
5242880 bytes passes the attachment check (no `file` error at all) and
5242881 bytes yields the file-size error. -/
theorem careersFileValidation :
    ∀ (name email portfolio linkedin github experience about : List Char)
      (p : List Char → Option Careers.UrlParts) (f : FileData),
      (("file", "A CV file is required.") ∈
        Careers.errorsFor name email portfolio linkedin github experience about none p)
      ∧ (Careers.cvFileOf (some (.file f)) = if f.size > 0 then some f else none)
      ∧ (f.type ∉ Careers.ALLOWED_MIME →
          ("file", "Only PDF, DOC, or DOCX files are accepted.") ∈
            Careers.errorsFor name email portfolio linkedin github experience about (some f) p)
      ∧ (f.type ∈ Careers.ALLOWED_MIME → f.size = 5242880 →
          ∀ msg, ("file", msg) ∉
            Careers.errorsFor name email portfolio linkedin github experience about (some f) p)
      ∧ (f.type ∈ Careers.ALLOWED_MIME → f.size = 5242881 →
          ("file", "CV must be 5 MB or smaller.") ∈
            Careers.errorsFor name email portfolio linkedin github experience about (some f) p) := by
  intro name email portfolio linkedin github experience about p f
  refine ⟨?_, rfl, ?_, ?_, ?_⟩
  · simp [Careers.errorsFor, mem_ite_singleton]
  · intro htype
    simp [Careers.errorsFor, mem_ite_singleton, htype]
  · intro htype hsize msg
    have hns : ¬ (f.size > Careers.MAX_FILE_BYTES) := by
      rw [hsize]
      decide
    simp [Careers.errorsFor, mem_ite_singleton, htype, hns]
  · intro htype hsize
    have hs : f.size > Careers.MAX_FILE_BYTES := by
      rw [hsize]
      decide
    simp [Careers.errorsFor, mem_ite_singleton, htype, hs]

/-- C5 witness: concrete boundary files. -/
theorem careersFileValidation_witness :
    (("file", "A CV file is required.") ∈
      Careers.errorsFor [] [] [] [] [] [] [] none noUrl)
  ∧ (("file", "Only PDF, DOC, or DOCX files are accepted.") ∈
      Careers.errorsFor [] [] [] [] [] [] []
        (some ⟨("cv.txt").toList, ("text/plain").toList, 7⟩) noUrl)
  ∧ (∀ msg, ("file", msg) ∉
      Careers.errorsFor [] [] [] [] [] [] []
        (some ⟨("cv.pdf").toList, ("application/pdf").toList, 5242880⟩) noUrl)
  ∧ (("file", "CV must be 5 MB or smaller.") ∈
      Careers.errorsFor [] [] [] [] [] [] []
        (some ⟨("cv.pdf").toList, ("application/pdf").toList, 5242881⟩) noUrl) :=
  ⟨(careersFileValidation [] [] [] [] [] [] [] noUrl
      ⟨("cv.pdf").toList, ("application/pdf").toList, 1⟩).1,
   (careersFileValidation [] [] [] [] [] [] [] noUrl
      ⟨("cv.txt").toList, ("text/plain").toList, 7⟩).2.2.1 (by decide),
   (careersFileValidation [] [] [] [] [] [] [] noUrl
      ⟨("cv.pdf").toList, ("application/pdf").toList, 5242880⟩).2.2.2.1 (by decide) rfl,
   (careersFileValidation [] [] [] [] [] [] [] noUrl
      ⟨("cv.pdf").toList, ("application/pdf").toList, 5242881⟩).2.2.2.2 (by decide) rfl⟩

/-- C6 counterexample: on a valid careers submission whose dispatch throws, the
500 body is the careers-specific generic message, not the
`"Unable to process request at this time."` the claim states for both
pipelines. -/
theorem careersDispatchErrorMessageDiffers :
    (Careers.POST (some demoCareersForm) (some (("ECONNREFUSED").toList)) prodEnv noUrl).resp
      = ⟨500, .errMsg "Unable to process your application at this time. Please try again."⟩
  ∧ ("Unable to process your application at this time. Please try again." : String)
      ≠ "Unable to process request at this time." := by
  constructor
  · rfl
  · decide

/-- C6 (amended): when the dispatcher throws on a valid submission, each
pipeline returns a 500 whose body is its own fixed generic message — the
contact route `"Unable to process request at this time."`, the careers route
`"Unable to process your application at this time. Please try again."` — for
every exception text, so no transport detail reaches the caller; the error is
logged exactly when `NODE_ENV` is `development` (so never in production). -/
theorem dispatchFailureGenericResponse :
    (∀ (b : Contact.Body) (err : List Char) (env : Env),
      jsTruthy b.website = false → Contact.errorsOf b = [] →
      (Contact.POST (some b) (some err) env).resp
          = ⟨500, .errMsg "Unable to process request at this time."⟩
        ∧ ((Contact.POST (some b) (some err) env).logged = true ↔
            env.NODE_ENV = some (("development").toList)))
  ∧ (∀ (f : Careers.Form) (err : List Char) (env : Env)
      (p : List Char → Option Careers.UrlParts),
      entryTruthy f.website = false → Careers.errorsOf f p = [] →
      (Careers.POST (some f) (some err) env p).resp
          = ⟨500, .errMsg "Unable to process your application at this time. Please try again."⟩
        ∧ ((Careers.POST (some f) (some err) env p).logged = true ↔
            env.NODE_ENV = some (("development").toList))) := by
  constructor
  · intro b err env hw he
    simp only [Contact.errorsOf] at he
    constructor
    · simp [Contact.POST, hw, he]
    · simp [Contact.POST, hw, he]
  · intro f err env p hw he
    simp only [Careers.errorsOf] at he
    constructor
    · simp [Careers.POST, hw, he]
    · simp [Careers.POST, hw, he]

/-- C6 witness: the amended statement at the demo submissions, dispatch
throwing, in a development environment. -/
theorem dispatchFailureGenericResponse_witness :
    ((Contact.POST (some demoContactBody) (some (("boom").toList)) devEnv).resp
        = ⟨500, .errMsg "Unable to process request at this time."⟩
      ∧ ((Contact.POST (some demoContactBody) (some (("boom").toList)) devEnv).logged = true ↔
          devEnv.NODE_ENV = some (("development").toList)))
  ∧ ((Careers.POST (some demoCareersForm) (some (("boom").toList)) devEnv noUrl).resp
        = ⟨500, .errMsg "Unable to process your application at this time. Please try again."⟩
      ∧ ((Careers.POST (some demoCareersForm) (some (("boom").toList)) devEnv noUrl).logged = true ↔
          devEnv.NODE_ENV = some (("development").toList))) :=
  ⟨dispatchFailureGenericResponse.1 demoContactBody (("boom").toList) devEnv
      (by decide) (by decide),
   dispatchFailureGenericResponse.2 demoCareersForm (("boom").toList) devEnv noUrl
      (by decide) (by decide)⟩

/-- C7 counterexample: the contact sanitizer turns the CRLF sequence in
`"a\r\nb"` into two spaces, not the single space the claim states. -/
theorem contactSanitizeCrlfTwoSpaces :
    Contact.sanitize (some (.str (("a\r\nb").toList))) 2000 = ("a  b").toList
  ∧ ("a  b").toList ≠ ("a b").toList := by
  constructor
  · decide
  · decide

/-- C7 (amended): the contact sanitizer replaces each CR and each LF character
with one space (a CRLF pair becomes two spaces), so its output never contains
CR or LF; the careers sanitizer applies no such replacement and passes interior
newlines through. -/
theorem contactSanitizeNoCrlf :
    (∀ (l : List Char),
      replaceCRLF l = l.map (fun c => if c = '\r' || c = '\n' then ' ' else c))
  ∧ (∀ (v : Option JsonVal) (m : Nat) (c : Char),
      c ∈ Contact.sanitize v m → c ≠ '\r' ∧ c ≠ '\n')
  ∧ Careers.sanitize (some (.str (("a\nb").toList))) 2000 = ("a\nb").toList := by
  refine ⟨?_, ?_, by decide⟩
  · intro l
    induction l with
    | nil => rfl
    | cons c rest ih =>
      show (if c = '\r' || c = '\n' then ' ' else c) :: replaceCRLF rest = _
      rw [List.map_cons, ih]
  · intro v m c hc
    match v with
    | none => simp [Contact.sanitize] at hc
    | some (.num _) => simp [Contact.sanitize] at hc
    | some (.boolean _) => simp [Contact.sanitize] at hc
    | some .null => simp [Contact.sanitize] at hc
    | some .obj => simp [Contact.sanitize] at hc
    | some (.str s) =>
      have h1 : c ∈ jsTrim (replaceCRLF (stripTags s)) :=
        (List.take_sublist _ _).subset hc
      have h2 : c ∈ replaceCRLF (stripTags s) :=
        (jsTrim_sublist _).subset h1
      exact mem_replaceCRLF_not_crlf _ h2

/-- C7 witness: the no-CR/LF parts applied at a concrete CRLF-ridden input. -/
theorem contactSanitizeNoCrlf_witness :
    replaceCRLF (("a\r\nb").toList)
        = (("a\r\nb").toList).map (fun c => if c = '\r' || c = '\n' then ' ' else c)
  ∧ ('\n' ∈ Contact.sanitize (some (.str (("a\r\nb").toList))) 2000 → False) :=
  ⟨contactSanitizeNoCrlf.1 (("a\r\nb").toList),
   fun h => (contactSanitizeNoCrlf.2.1 (some (.str (("a\r\nb").toList))) 2000 '\n' h).2 rfl⟩

/-- C8 counterexample: on a valid careers submission with no portfolio the
plain-text body mentions no "Portfolio" at all — the line is omitted, not
rendered as a placeholder, so the line layout differs between submissions. -/
theorem careersTextOmitsAbsentPortfolio :
    ((Careers.POST (some demoCareersForm) none prodEnv noUrl).sent.map
      (fun m => hasSubstring (("Portfolio").toList) m.text)) = some false := by
  rfl

/-- C8 (amended): the contact text body always renders the placeholder lines
`"Company:  —"` and `"Service:  Not specified"` for absent optional fields, so
its line layout is fixed; the careers text body instead drops the portfolio,
linkedin and github lines (and its blank separator lines) entirely —
`filter(Boolean)` removes them — so its layout varies with the optional
fields. -/
theorem textBodyOptionalFieldRendering :
    (∀ (name email message : List Char),
      Contact.textLines name email [] [] message =
        [("New contact inquiry received via 7ZeroMedia website.").toList,
         [],
         ("Name:     ").toList ++ name,
         ("Email:    ").toList ++ email,
         ("Company:  —").toList,
         ("Service:  Not specified").toList,
         [],
         ("Message:").toList,
         message,
         [],
         ("─────────────────────────────").toList,
         ("This email was sent automatically. Do not reply to this address.").toList])
  ∧ (∀ (jobTitle name email experience about : List Char), about ≠ [] →
      Careers.textLines jobTitle name email experience [] [] [] about =
        [("New job application received via 7ZeroMedia website.").toList,
         ("Position: ").toList ++
           (if jobTitle.isEmpty then ("Not specified").toList else jobTitle),
         ("Name:        ").toList ++ name,
         ("Email:       ").toList ++ email,
         ("Experience:  ").toList ++ experience,
         ("About the candidate:").toList,
         about,
         ("─────────────────────────────").toList,
         ("CV is attached to this email.").toList,
         ("This message was sent automatically from the 7ZeroMedia careers form.").toList]) := by
  constructor
  · intro name email message
    rfl
  · intro jobTitle name email experience about habout
    match about with
    | [] => exact absurd rfl habout
    | a :: rest => rfl

/-- C8 witness: the amended statement at concrete field values. -/
theorem textBodyOptionalFieldRendering_witness :
    Contact.textLines (("A").toList) (("a@b.co").toList) [] [] (("hi").toList) =
        [("New contact inquiry received via 7ZeroMedia website.").toList,
         [],
         ("Name:     A").toList,
         ("Email:    a@b.co").toList,
         ("Company:  —").toList,
         ("Service:  Not specified").toList,
         [],
         ("Message:").toList,
         ("hi").toList,
         [],
         ("─────────────────────────────").toList,
         ("This email was sent automatically. Do not reply to this address.").toList]
  ∧ Careers.textLines [] (("A").toList) (("a@b.co").toList) (("Fresher").toList)
      [] [] [] (("ok!").toList) =
        [("New job application received via 7ZeroMedia website.").toList,
         ("Position: Not specified").toList,
         ("Name:        A").toList,
         ("Email:       a@b.co").toList,
         ("Experience:  Fresher").toList,
         ("About the candidate:").toList,
         ("ok!").toList,
         ("─────────────────────────────").toList,
         ("CV is attached to this email.").toList,
         ("This message was sent automatically from the 7ZeroMedia careers form.").toList] := by
  have h1 := textBodyOptionalFieldRendering.1 (("A").toList) (("a@b.co").toList) (("hi").toList)
  have h2 := textBodyOptionalFieldRendering.2 [] (("A").toList) (("a@b.co").toList)
    (("Fresher").toList) (("ok!").toList) (by decide)
  refine ⟨?_, ?_⟩
  · rw [h1]
    decide
  · rw [h2]
    decide

/-- C1: the spec requires every user-supplied field value interpolated into the
composed HTML body to be HTML-escaped on both pipelines, but the careers route
interpolates the sanitized fields raw. On a valid careers submission with name
`A&B` the dispatched HTML body contains the unescaped `A&B` (the exact window
around offset 1527 shows it sitting raw between the template's `">` and
`</p>`) — even though
`escapeHtml` would have produced `A&amp;B`, which is exactly what the contact
route's HTML body contains for the same name. -/
theorem careersHtmlBodyInterpolatesRaw :
    ((Careers.POST (some demoCareersForm) none prodEnv noUrl).sent.map
      (fun m => hasSubstring (("A&B").toList) m.html)) = some true
  ∧ ((Careers.POST (some demoCareersForm) none prodEnv noUrl).sent.map
      (fun m => (m.html.drop 1527).take 40)) =
      some (("lor:#111111;font-weight:600;\">A&B</p>\n  ").toList)
  ∧ escapeHtml (("A&B").toList) = ("A&amp;B").toList
  ∧ ((Contact.POST (some demoContactBody) none prodEnv).sent.map
      (fun m => hasSubstring (("A&amp;B").toList) m.html)) = some true := by
  refine ⟨by rfl, by rfl, by decide, by rfl⟩

end SevenZero
